import Mathlib

/-!
Verification development for the terminal-dashboard core of
src/packages/snowpack/src/commands/paint.ts.

The mutable closure state of the exported function paint (port, hostname,
protocol, startTimeMs, ips, consoleOutput, installOutput, isInstalling,
allWorkerStates, allFileBuilds) is embedded as the structure PaintModel.
Each bus.on event handler becomes one branch of the step function, which
returns none exactly when the JavaScript handler would throw a TypeError
by dereferencing a missing record. The repaint function is embedded as a
pure function from the model to a list of output segments, abstracting the
ANSI color codes but keeping the decision structure of the code.

JavaScript fields that may hold the value undefined are embedded as Option
with none for undefined; string interpolation of undefined produces the
text "undefined", as in JavaScript.
-/

/-- A JavaScript value stored in the error field of a worker record.
The declared type in paint.ts is null or Error, but the payloads arriving
on the bus are untyped, so an array value is also representable; the
repaint code at paint.ts:126 tests Array.isArray on this field. -/
inductive JsErrorVal where
  | err (msg : String)
  | arr (elems : List String)
  deriving DecidableEq, Repr

/-- interface WorkerState, paint.ts:67-72. -/
structure WorkerState where
  done : Bool
  state : Option (String × String)
  error : Option JsErrorVal
  output : String
  deriving DecidableEq, Repr

/-- const WORKER_BASE_STATE, paint.ts:73. -/
def WORKER_BASE_STATE : WorkerState :=
  { done := false, error := none, state := none, output := "" }

/-- Record of worker id to WorkerState, in insertion order, modelling the
JavaScript object allWorkerStates (paint.ts:99): property lookup, property
assignment that updates in place, and Object.entries iteration order. -/
abbrev WorkerMap := List (String × WorkerState)

/-- allWorkerStates lookup: allWorkerStates id, none when the key is absent. -/
def WorkerMap.find : WorkerMap → String → Option WorkerState
  | [], _ => none
  | (k, v) :: tl, id => if k == id then some v else WorkerMap.find tl id

/-- allWorkerStates assignment: replaces the value at an existing key in
place, otherwise appends the new key at the end, as a JavaScript object
property assignment does. -/
def WorkerMap.set : WorkerMap → String → WorkerState → WorkerMap
  | [], id, w => [(id, w)]
  | (k, v) :: tl, id, w =>
      if k == id then (id, w) :: tl else (k, v) :: WorkerMap.set tl id w

/-- JavaScript String.prototype.startsWith on character lists. -/
def listStartsWith : List Char → List Char → Bool
  | _, [] => true
  | [], _ :: _ => false
  | a :: as, b :: bs => a == b && listStartsWith as bs

/-- Substring search on character lists. -/
def hasSub : List Char → List Char → Bool
  | [], pat => pat.isEmpty
  | c :: rest, pat => listStartsWith (c :: rest) pat || hasSub rest pat

/-- JavaScript String.prototype.includes. -/
def jsIncludes (s pat : String) : Bool :=
  hasSub s.toList pat.toList

/-- ASCII whitespace trimmed by JavaScript String.prototype.trim, for the
characters that can occur in worker output. -/
def isWS (c : Char) : Bool :=
  c == ' ' || c == '\t' || c == '\n' || c == '\r'

/-- Drop leading whitespace characters. -/
def dropWS : List Char → List Char
  | [] => []
  | c :: rest => if isWS c then dropWS rest else c :: rest

/-- JavaScript String.prototype.trim. -/
def jsTrim (s : String) : String :=
  String.mk ((dropWS ((dropWS s.toList).reverse)).reverse)

/-- The substitution output.replace of every newline by a newline plus two
spaces, paint.ts:130 and paint.ts:154. -/
def indentNewlines : List Char → List Char
  | [] => []
  | c :: rest =>
      if c == '\n' then '\n' :: ' ' :: ' ' :: indentNewlines rest
      else c :: indentNewlines rest

/-- Apply the newline indentation to a string. -/
def jsIndent (s : String) : String :=
  String.mk (indentNewlines s.toList)

/-- function hideOutput, paint.ts:76-88. -/
def hideOutput (cmd : String) (stdout : String) : Bool :=
  match cmd with
  | "svelte-check" => jsIncludes stdout "found no errors"
  | "tsc" => jsIncludes stdout "Found 0 errors."
  | _ => false

/-- const displayName, paint.ts:23-25: lookup of a human-friendly name. -/
def displayName : String → Option String
  | "tsc" => some "TypeScript"
  | _ => none

/-- JavaScript string interpolation of a possibly-undefined string. -/
def jsStr : Option String → String
  | some s => s
  | none => "undefined"

/-- JavaScript string interpolation of a possibly-undefined number. -/
def jsNum : Option Nat → String
  | some n => toString n
  | none => "undefined"

/-- JavaScript ips[0]: the first element, or undefined rendered as text. -/
def jsHead : List String → String
  | [] => "undefined"
  | x :: _ => x

/-- Array.isArray on the stored error value, paint.ts:126. -/
def jsIsArray : Option JsErrorVal → Bool
  | some (.arr _) => true
  | _ => false

/-- The closure state of paint (paint.ts:91-100). Fields initialized by
plain let declarations without a value start as undefined, embedded as
none; protocol starts as the empty string. -/
structure PaintModel where
  port : Option Nat
  hostname : Option String
  protocol : String
  startTimeMs : Option Nat
  ips : List String
  consoleOutput : List String
  installOutput : String
  isInstalling : Bool
  allWorkerStates : WorkerMap
  allFileBuilds : List String
  deriving DecidableEq, Repr

/-- The state right after paint runs its initialization (paint.ts:91-104),
including the plugin loop that seeds one base record per plugin name. -/
def initModel (plugins : List String) : PaintModel :=
  { port := none, hostname := none, protocol := "", startTimeMs := none,
    ips := [], consoleOutput := [], installOutput := "", isInstalling := false,
    allWorkerStates :=
      plugins.foldl (fun ws p => WorkerMap.set ws p WORKER_BASE_STATE) [],
    allFileBuilds := [] }

/-- function setupWorker, paint.ts:106-110. -/
def setupWorker (ws : WorkerMap) (id : String) : WorkerMap :=
  match WorkerMap.find ws id with
  | some _ => ws
  | none => WorkerMap.set ws id WORKER_BASE_STATE

/-- JavaScript Set.prototype.add on the insertion-ordered build set. -/
def setAdd (s : List String) (x : String) : List String :=
  if x ∈ s then s else s ++ [x]

/-- JavaScript Set.prototype.delete on the insertion-ordered build set. -/
def setDelete (s : List String) (x : String) : List String :=
  s.filter (fun y => y != x)

/-- One segment of terminal output produced by repaint, keeping the
structure of the writes while abstracting the ANSI escape codes. -/
inductive Seg where
  | clearScreen
  | consoleHeader
  | consoleBody (text : String)
  | workerHeader (red : Bool) (title : String)
  | workerBody (text : String)
  | buildingIndicator
  | readyBadge (text : String)
  | loadingBadge
  | installHeader
  | installBody (text : String)
  deriving DecidableEq, Repr

/-- The console section of repaint, paint.ts:117-121: drawn when
consoleOutput.length is truthy, body joined with a two-space indent. -/
def consoleSection (m : PaintModel) : List Seg :=
  if m.consoleOutput.length != 0 then
    [Seg.consoleHeader, Seg.consoleBody (String.intercalate "\n  " m.consoleOutput)]
  else []

/-- One worker section of repaint, paint.ts:124-133. The header color
function is red exactly when Array.isArray(workerState.error) holds. The
title expression concatenates the bullet with displayName[script] before
the disjunction with script, so a missing display name renders as the
text undefined and the fallback to the raw script name never applies. -/
def renderWorker (script : String) (w : WorkerState) : List Seg :=
  if w.output != "" && !(hideOutput script w.output) then
    [Seg.workerHeader (jsIsArray w.error) ("▼ " ++ jsStr (displayName script)),
     Seg.workerBody (jsIndent (jsTrim w.output))]
  else []

/-- All worker sections in Object.entries insertion order. -/
def workerSections (m : PaintModel) : List Seg :=
  (m.allWorkerStates.map (fun p => renderWorker p.1 p.2)).flatten

/-- const isServerStarted, paint.ts:136: startTimeMs greater than zero,
port greater than zero, protocol truthy; a comparison on the undefined
value is false in JavaScript. -/
def isServerStarted (m : PaintModel) : Bool :=
  (match m.startTimeMs with
   | some t => decide (0 < t)
   | none => false) &&
  (match m.port with
   | some p => decide (0 < p)
   | none => false) &&
  (m.protocol != "")

/-- The dashboard status bar of repaint, paint.ts:136-150. -/
def dashboard (m : PaintModel) : List Seg :=
  if isServerStarted m then
    (if 0 < m.allFileBuilds.length then [Seg.buildingIndicator] else []) ++
    [Seg.readyBadge
      (jsStr m.hostname ++ ":" ++ jsNum m.port ++ " › " ++ jsHead m.ips)]
  else [Seg.loadingBadge]

/-- The install section of repaint, paint.ts:152-157, drawn only while
isInstalling is true. -/
def installSection (m : PaintModel) : List Seg :=
  if m.isInstalling then
    [Seg.installHeader, Seg.installBody ("  " ++ jsIndent (jsTrim m.installOutput))]
  else []

/-- function repaint, paint.ts:112-158, as the sequence of output
segments it writes. -/
def repaint (m : PaintModel) : List Seg :=
  [Seg.clearScreen] ++ consoleSection m ++ workerSections m ++
    dashboard m ++ installSection m

/-- The events dispatched on the bus, paint.ts:184-233, with the payload
fields each handler reads. A payload field that may be absent is an
Option, none standing for the undefined value. -/
inductive PaintEvent where
  | buildFile (id : String) (isBuilding : Bool)
  | workerMsg (id : String) (msg : String)
  | workerUpdate (id : String) (st : Option (String × String))
  | workerComplete (id : String) (error : Option JsErrorVal)
  | workerReset (id : String)
  | info (args : String)
  | warn (args : String)
  | err (args : String)
  | serverStart (startTimeMs : Option Nat) (hostname : String) (port : Nat)
      (protocol : String) (ips : List String)
  deriving DecidableEq, Repr

/-- The guard of the WORKER_UPDATE handler, paint.ts:198. The JavaScript
expression compares typeof state, which always evaluates to a string such
as the eight-character string of letters u n d e f i n e d, against the
undefined value itself; a string is never the undefined value, so the
comparison is true for every payload, present or absent. -/
def typeofStateNeUndefinedGuard (_st : Option (String × String)) : Bool :=
  true

/-- One reduce step: the bus.on handler for each event, paint.ts:184-233.
rel stands for path.relative(cwd, id) with the ambient working directory
fixed. The result is none exactly when the handler dereferences a record
that is absent, which in JavaScript throws a TypeError. -/
def step (rel : String → String) (m : PaintModel) : PaintEvent → Option PaintModel
  | .buildFile id isBuilding =>
      if isBuilding then
        some { m with allFileBuilds := setAdd m.allFileBuilds (rel id) }
      else
        some { m with allFileBuilds := setDelete m.allFileBuilds (rel id) }
  | .workerMsg id msg =>
      match WorkerMap.find (setupWorker m.allWorkerStates id) id with
      | some w =>
          let ws := WorkerMap.set (setupWorker m.allWorkerStates id) id
            ({ w with output := w.output ++ msg })
          some { m with allWorkerStates := ws }
      | none => none
  | .workerUpdate id st =>
      if typeofStateNeUndefinedGuard st then
        match WorkerMap.find (setupWorker m.allWorkerStates id) id with
        | some w =>
            let ws := WorkerMap.set (setupWorker m.allWorkerStates id) id
              ({ w with state := st })
            some { m with allWorkerStates := ws }
        | none => none
      else some m
  | .workerComplete id e =>
      match WorkerMap.find m.allWorkerStates id with
      | some w =>
          let ws := WorkerMap.set m.allWorkerStates id
            ({ w with state := some ("DONE", "green"), done := true,
                      error := (match w.error with
                                | some prior => some prior
                                | none => e) })
          some { m with allWorkerStates := ws }
      | none => none
  | .workerReset id =>
      let ws := WorkerMap.set m.allWorkerStates id WORKER_BASE_STATE
      some { m with allWorkerStates := ws }
  | .info args => some { m with consoleOutput := m.consoleOutput ++ [args] }
  | .warn args => some { m with consoleOutput := m.consoleOutput ++ [args] }
  | .err args => some { m with consoleOutput := m.consoleOutput ++ [args] }
  | .serverStart st hn p proto ips =>
      some { m with startTimeMs := st, hostname := some hn, port := some p,
                    protocol := proto, ips := ips }

/-- Sequential processing of a list of events; stops at the first handler
that throws. -/
def stepAll (rel : String → String) (m : PaintModel) : List PaintEvent → Option PaintModel
  | [] => some m
  | e :: es =>
      match step rel m e with
      | some m' => stepAll rel m' es
      | none => none

/-- The identity relativization, used for concrete runs. -/
def relId : String → String := fun s => s

/-- Looking up the key just assigned returns the assigned record. -/
theorem WorkerMap.find_set (ws : WorkerMap) (id : String) (w : WorkerState) :
    WorkerMap.find (WorkerMap.set ws id w) id = some w := by
  induction ws with
  | nil => simp [WorkerMap.set, WorkerMap.find]
  | cons hd tl ih =>
      obtain ⟨k, v⟩ := hd
      by_cases h : k = id
      · simp [WorkerMap.set, WorkerMap.find, h]
      · simp [WorkerMap.set, WorkerMap.find, h, ih]

/-- The path just added is a member of the build set. -/
theorem mem_setAdd (s : List String) (x : String) : x ∈ setAdd s x := by
  by_cases h : x ∈ s
  · simp [setAdd, h]
  · simp [setAdd, h]

/-- Adding a member path leaves the build set unchanged. -/
theorem setAdd_of_mem (s : List String) (x : String) (h : x ∈ s) :
    setAdd s x = s := by
  simp [setAdd, h]

/-- Adding a path to a build set holding it at most once gives exactly one
membership. -/
theorem count_setAdd (s : List String) (x : String) (h : s.count x ≤ 1) :
    (setAdd s x).count x = 1 := by
  by_cases hm : x ∈ s
  · rw [setAdd_of_mem s x hm]
    exact Nat.le_antisymm h (List.count_pos_iff.mpr hm)
  · simp [setAdd, hm, List.count_append, List.count_eq_zero.mpr hm]

/-- Removing a path that is not a member leaves the build set unchanged. -/
theorem setDelete_of_not_mem (s : List String) (x : String) (h : x ∉ s) :
    setDelete s x = s := by
  refine List.filter_eq_self.mpr fun a ha => ?_
  have : a ≠ x := fun hax => h (hax ▸ ha)
  simpa using this

/-- Frame property of one reduce step: the console log only ever grows by
a suffix, and the install fields are never touched by any handler. -/
theorem step_frame (rel : String → String) (m : PaintModel) (e : PaintEvent)
    (m' : PaintModel) (h : step rel m e = some m') :
    (∃ t, m'.consoleOutput = m.consoleOutput ++ t) ∧
    m'.isInstalling = m.isInstalling ∧ m'.installOutput = m.installOutput := by
  cases e <;>
    simp only [step, typeofStateNeUndefinedGuard, if_true] at h <;>
    (try split at h) <;>
    (first
     | exact Option.noConfusion h
     | (obtain rfl := Option.some.inj h
        exact ⟨⟨[], (List.append_nil _).symm⟩, rfl, rfl⟩)
     | (obtain rfl := Option.some.inj h
        exact ⟨⟨_, rfl⟩, rfl, rfl⟩))

/-- Frame property over a whole event sequence. -/
theorem stepAll_frame (rel : String → String) (es : List PaintEvent) :
    ∀ m m' : PaintModel, stepAll rel m es = some m' →
      m.consoleOutput.length ≤ m'.consoleOutput.length ∧
      m'.isInstalling = m.isInstalling ∧ m'.installOutput = m.installOutput := by
  induction es with
  | nil =>
      intro m m' h
      cases h
      exact ⟨Nat.le_refl _, rfl, rfl⟩
  | cons e es ih =>
      intro m m' h
      simp only [stepAll] at h
      cases hs : step rel m e with
      | none => rw [hs] at h; cases h
      | some mm =>
          rw [hs] at h
          obtain ⟨⟨t, ht⟩, hi, ho⟩ := step_frame rel m e mm hs
          obtain ⟨hl, hi2, ho2⟩ := ih mm m' h
          refine ⟨?_, hi2.trans hi, ho2.trans ho⟩
          calc m.consoleOutput.length
              ≤ mm.consoleOutput.length := by simp [ht]
            _ ≤ m'.consoleOutput.length := hl

/-- A model whose only worker has a stored state pair, used to exhibit the
behavior of the WORKER_UPDATE handler on a payload without a state field. -/
def C1model : PaintModel :=
  { initModel [] with allWorkerStates :=
      [("w", { done := false, state := some ("A", "green"), error := none,
               output := "" })] }

/-- C1: contrary to the claim, a WORKER_UPDATE event whose payload omits
the state field does not leave the stored state unchanged: the guard at
paint.ts:198 compares the string result of typeof against the undefined
value and is therefore always true, so the handler overwrites the stored
state with the undefined payload value, clearing it. -/
theorem C1_workerUpdate_clears_omitted_state :
    WorkerMap.find C1model.allWorkerStates "w" =
      some { done := false, state := some ("A", "green"), error := none,
             output := "" } ∧
    (step relId C1model (.workerUpdate "w" none)).map
        (fun mm => WorkerMap.find mm.allWorkerStates "w")
      = some (some { done := false, state := none, error := none,
                     output := "" }) :=
  ⟨rfl, rfl⟩

/-- C2, counterexample: processing WORKER_COMPLETE for a worker id with no
existing record does fail: the handler at paint.ts:205 dereferences the
missing record without calling setupWorker, modelled as the none result. -/
theorem C2_counterexample :
    step relId (initModel []) (.workerComplete "w" none) = none := rfl

/-- C2, amended: processing a WORKER_COMPLETE event for a worker id that
has no existing WorkerStatus record fails: the handler dereferences the
missing record, and no zero-value record is auto-created there. -/
theorem C2_workerComplete_missing_record_fails (rel : String → String)
    (m : PaintModel) (id : String) (e : Option JsErrorVal)
    (h : WorkerMap.find m.allWorkerStates id = none) :
    step rel m (.workerComplete id e) = none := by
  simp [step, h]

/-- C2, witness for the amended theorem at a concrete input. -/
theorem C2_witness :
    step relId (initModel []) (.workerComplete "build" none) = none :=
  C2_workerComplete_missing_record_fails relId (initModel []) "build" none rfl

/-- C3: once the stored error of a worker is non-null, a WORKER_COMPLETE
event carrying a null error leaves that stored error unchanged, because
the handler assigns the disjunction of the old error with the payload
error (first error wins). -/
theorem C3_sticky_error (rel : String → String) (m : PaintModel)
    (id : String) (w : WorkerState) (ev : JsErrorVal)
    (hf : WorkerMap.find m.allWorkerStates id = some w)
    (he : w.error = some ev) :
    ∃ m', step rel m (.workerComplete id none) = some m' ∧
      ∃ w', WorkerMap.find m'.allWorkerStates id = some w' ∧
        w'.error = some ev := by
  simp only [step, hf]
  exact ⟨_, rfl, _, WorkerMap.find_set _ _ _, by simp [he]⟩

/-- A model whose only worker already carries an error, for the witnesses
of the sticky-error property. -/
def C3model : PaintModel :=
  { initModel [] with allWorkerStates :=
      [("w", { done := false, state := none,
               error := some (.err "boom"), output := "" })] }

/-- C3, witness at a concrete input. -/
theorem C3_witness :
    ∃ m', step relId C3model (.workerComplete "w" none) = some m' ∧
      ∃ w', WorkerMap.find m'.allWorkerStates "w" = some w' ∧
        w'.error = some (.err "boom") :=
  C3_sticky_error relId C3model "w"
    { done := false, state := none, error := some (.err "boom"), output := "" }
    (.err "boom") rfl rfl

/-- C4, counterexample: the SERVER_START payload of the claim omits the
startTimeMs field, so the handler stores the undefined value there; the
comparison of startTimeMs with zero at paint.ts:136 is then false, and
the rendered status bar shows the loading badge, not the ready badge. -/
theorem C4_counterexample :
    (step relId (initModel [])
        (.serverStart none "localhost" 8080 "http://" ["192.168.1.5"])).map repaint
      = some [Seg.clearScreen, Seg.loadingBadge] := rfl

/-- C4, amended: with a positive startTimeMs added to the payload, the
scenario behaves as claimed: the render after SERVER_START on an empty
build set is exactly the clear-screen followed by the ready badge carrying
the hostname, port and primary address, with no building indicator and no
loading badge. -/
theorem C4_amended_ready_badge :
    (step relId (initModel [])
        (.serverStart (some 1000) "localhost" 8080 "http://" ["192.168.1.5"])).map repaint
      = some [Seg.clearScreen, Seg.readyBadge "localhost:8080 › 192.168.1.5"] := rfl

/-- A model whose only worker has a non-null error of the declared Error
kind and non-empty output, for the header-color divergence. -/
def C5model : PaintModel :=
  { initModel [] with allWorkerStates :=
      [("w", { done := true, state := none,
               error := some (.err "boom"), output := "boom!" })] }

/-- C5: contrary to the claim, a rendered section of a worker whose error
field is set is not shown in red: the color test at paint.ts:126 is
Array.isArray on a field of declared type null or Error, which is false
for every Error value, so the header renders in the neutral color. -/
theorem C5_header_neutral_despite_error :
    (WorkerMap.find C5model.allWorkerStates "w").map WorkerState.error
      = some (some (JsErrorVal.err "boom")) ∧
    repaint C5model =
      [Seg.clearScreen, Seg.workerHeader false "▼ undefined",
       Seg.workerBody "boom!", Seg.loadingBadge] :=
  ⟨rfl, rfl⟩

/-- C6: processing WORKER_RESET for any worker id in any model yields a
model whose record for that id is exactly the zero-value base record. -/
theorem C6_reset_zero (rel : String → String) (m : PaintModel) (id : String) :
    ∃ m', step rel m (.workerReset id) = some m' ∧
      WorkerMap.find m'.allWorkerStates id = some WORKER_BASE_STATE :=
  ⟨_, rfl, WorkerMap.find_set _ _ _⟩

/-- C7: two consecutive BUILD_FILE start events for the same path leave
exactly one membership of its relativized path in the build set, provided
the set held it at most once before, as a set does; and a BUILD_FILE stop
event for a path not in the build set leaves the model unchanged. -/
theorem C7_buildset_idempotent (rel : String → String) (m : PaintModel)
    (p : String) :
    (m.allFileBuilds.count (rel p) ≤ 1 →
      ∃ m1 m2, step rel m (.buildFile p true) = some m1 ∧
        step rel m1 (.buildFile p true) = some m2 ∧
        m2.allFileBuilds.count (rel p) = 1) ∧
    (rel p ∉ m.allFileBuilds → step rel m (.buildFile p false) = some m) := by
  constructor
  · intro h
    refine ⟨_, _, rfl, rfl, ?_⟩
    show (setAdd (setAdd m.allFileBuilds (rel p)) (rel p)).count (rel p) = 1
    rw [setAdd_of_mem _ _ (mem_setAdd _ _)]
    exact count_setAdd _ _ h
  · intro h
    show some _ = some m
    rw [setDelete_of_not_mem _ _ h]

/-- C7, witness at a concrete input: the empty build set holds the path at
most once and does not contain it. -/
theorem C7_witness :
    (∃ m1 m2, step relId (initModel []) (.buildFile "a.js" true) = some m1 ∧
        step relId m1 (.buildFile "a.js" true) = some m2 ∧
        m2.allFileBuilds.count (relId "a.js") = 1) ∧
    step relId (initModel []) (.buildFile "a.js" false) = some (initModel []) :=
  ⟨(C7_buildset_idempotent relId (initModel []) "a.js").1 (by decide),
   (C7_buildset_idempotent relId (initModel []) "a.js").2 (by decide)⟩

/-- The model after the tsc worker reports zero errors: the lazily created
record holds the message in its output buffer. -/
def C8model : PaintModel :=
  { initModel [] with allWorkerStates :=
      [("tsc", { done := false, state := none, error := none,
                 output := "Found 0 errors." })] }

/-- C8: from the initial model, a WORKER_MSG event from tsc reporting zero
errors leaves the output buffer of the tsc worker non-empty, yet the
render emits no section for that worker: hideOutput suppresses it. -/
theorem C8_tsc_zero_errors_suppressed :
    step relId (initModel []) (.workerMsg "tsc" "Found 0 errors.") = some C8model ∧
    (WorkerMap.find C8model.allWorkerStates "tsc").map WorkerState.output
      = some "Found 0 errors." ∧
    repaint C8model = [Seg.clearScreen, Seg.loadingBadge] :=
  ⟨rfl, rfl, rfl⟩

/-- C9: each of INFO, WARN and ERROR appends exactly its argument as one
new entry at the end of the console log; every successful step leaves the
prior console log as an initial segment of the new one; and over any event
sequence the console log length is monotonically non-decreasing. -/
theorem C9_console_append_only (rel : String → String) (m : PaintModel) :
    (∀ args, step rel m (.info args) =
        some { m with consoleOutput := m.consoleOutput ++ [args] }) ∧
    (∀ args, step rel m (.warn args) =
        some { m with consoleOutput := m.consoleOutput ++ [args] }) ∧
    (∀ args, step rel m (.err args) =
        some { m with consoleOutput := m.consoleOutput ++ [args] }) ∧
    (∀ e m', step rel m e = some m' →
        ∃ t, m'.consoleOutput = m.consoleOutput ++ t) ∧
    (∀ es m', stepAll rel m es = some m' →
        m.consoleOutput.length ≤ m'.consoleOutput.length) :=
  ⟨fun _ => rfl, fun _ => rfl, fun _ => rfl,
   fun e m' h => (step_frame rel m e m' h).1,
   fun es m' h => (stepAll_frame rel es m m' h).1⟩

/-- C9, witness: a concrete three-event run on which the console log grows
from empty to three entries. -/
theorem C9_witness :
    (initModel []).consoleOutput.length ≤
      ({ initModel [] with consoleOutput := ["a", "b", "c"] } : PaintModel).consoleOutput.length :=
  (C9_console_append_only relId (initModel [])).2.2.2.2
    [.info "a", .warn "b", .err "c"] _ rfl

/-- C10: the installing flag starts false and installOutput starts empty,
no handler writes either, so after any event sequence the flag is still
false, the install output is still empty, and the install section of the
render is empty. -/
theorem C10_install_never_rendered (rel : String → String)
    (plugins : List String) (es : List PaintEvent) (m' : PaintModel)
    (h : stepAll rel (initModel plugins) es = some m') :
    m'.isInstalling = false ∧ m'.installOutput = "" ∧ installSection m' = [] := by
  obtain ⟨-, hi, ho⟩ := stepAll_frame rel es (initModel plugins) m' h
  have h1 : m'.isInstalling = false := hi.trans rfl
  have h2 : m'.installOutput = "" := ho.trans rfl
  exact ⟨h1, h2, by simp [installSection, h1]⟩

/-- C10, witness at a concrete input. -/
theorem C10_witness :
    (initModel ["tsc"]).isInstalling = false ∧
    (initModel ["tsc"]).installOutput = "" ∧
    installSection (initModel ["tsc"]) = [] :=
  C10_install_never_rendered relId ["tsc"] [] (initModel ["tsc"]) rfl
